import Mathlib

/-!
Shallow embedding of the Do-Gooder server core (`src/dogooder/control.py` and
`src/dogooder/actions/insert_deed.py`) and proofs of the specification claims.

The entity classes (`dogooder.model.user`, `dogooder.model.deed`,
`dogooder.model.accomplishment`), the view helpers, the `user_session`
decorator and the transport framework that drives `Control._flush` are not
part of the two source files; where they matter they are modelled from the
spec and marked as such in their doc comments.  Everything in `control.py`
and `actions/insert_deed.py` is translated directly.
-/

namespace DoGooder

/-- Wall-clock instants at second granularity, mirroring the fields of a
Python `datetime.datetime` that the code uses (microseconds never matter
to any comparison in the source). -/
structure DateTime where
  year : Nat
  month : Nat
  day : Nat
  hour : Nat
  minute : Nat
  second : Nat
deriving DecidableEq, Repr

/-- Python's Gregorian leap-year rule (`calendar.isleap`). -/
def isLeap (y : Nat) : Bool :=
  (y % 4 == 0 && y % 100 != 0) || y % 400 == 0

/-- Days in a month, as `datetime` validates them. -/
def daysInMonth (year month : Nat) : Nat :=
  if month = 2 then (if isLeap year then 29 else 28)
  else if month = 4 ∨ month = 6 ∨ month = 9 ∨ month = 11 then 30
  else 31

/-- `datetime.datetime(year, month, day)`: validates the components and
raises `ValueError` (here: `none`) when the day is out of range for the
month, exactly as CPython does. -/
def mkDatetime (year month day : Nat) : Option DateTime :=
  if 1 ≤ year ∧ year ≤ 9999 ∧ 1 ≤ month ∧ month ≤ 12 ∧ 1 ≤ day ∧
      day ≤ daysInMonth year month then
    some ⟨year, month, day, 0, 0, 0⟩
  else
    none

/-- Injective monotone key for comparing valid datetimes; Python compares
datetimes lexicographically by component, which for in-range components
agrees with comparing this mixed-radix encoding. -/
def DateTime.key (t : DateTime) : Nat :=
  ((((t.year * 13 + t.month) * 32 + t.day) * 24 + t.hour) * 60 + t.minute) * 60
    + t.second

/-- `today + datetime.timedelta(days=1)`: day increment with correct
month/year rollover (this is the rollover-safe path `get_todays_deeds`
uses, in contrast to `accomplish_deed`). -/
def DateTime.addOneDay (t : DateTime) : DateTime :=
  if t.day + 1 ≤ daysInMonth t.year t.month then { t with day := t.day + 1 }
  else if t.month + 1 ≤ 12 then { t with month := t.month + 1, day := 1 }
  else { t with year := t.year + 1, month := 1, day := 1 }

/-- Modelled from the spec: the `User` entity (`dogooder.model.user`, not
under src/) — identity, unique email, stored credential.  `authenticate`
raises `ValueError` on a bad password; we model the credential check as
comparison against the stored secret. -/
structure User where
  id : Nat
  email : String
  password : String
deriving DecidableEq, Repr

/-- Modelled from the spec: `User.authenticate(password)` succeeds exactly
when the password matches the stored credential. -/
def User.authenticate (u : User) (password : String) : Bool :=
  u.password == password

/-- Modelled from the spec: the `Deed` entity (`dogooder.model.deed`, not
under src/) — id, description text, creation timestamp. -/
structure Deed where
  id : Nat
  description : String
  created : DateTime
deriving DecidableEq, Repr

/-- Modelled from the spec: the `Accomplishment` entity
(`dogooder.model.accomplishment`, not under src/) — references to a Deed
and a User plus the completion timestamp. -/
structure Accomplishment where
  id : Nat
  deed_id : Nat
  user_id : Nat
  completed : DateTime
deriving DecidableEq, Repr

/-- The JSON-like view of a Deed (`deed.to_json()`), extended by the
optional `percent_of_votes` annotation that `get_todays_deeds` adds.
Percentages are exact rationals standing for the Python float
`100 * count / total` (exact at every value the claims mention). -/
structure DeedView where
  id : Nat
  description : String
  created : DateTime
  percent_of_votes : Option ℚ
deriving DecidableEq, Repr

/-- `deed.to_json()`: the plain view, no vote annotation. -/
def Deed.to_json (d : Deed) : DeedView :=
  { id := d.id, description := d.description, created := d.created,
    percent_of_votes := none }

/-- Modelled from the spec: `detailed_deed_view` (`dogooder.views.deed`,
not under src/) — the representation of a Deed returned and broadcast by
the actions-module `insert_deed`. -/
def detailed_deed_view (d : Deed) : DeedView :=
  d.to_json

/-- The JSON-like view of a User (`user.to_json()`). -/
structure UserView where
  id : Nat
  email : String
deriving DecidableEq, Repr

/-- `user.to_json()`. -/
def User.to_json (u : User) : UserView :=
  { id := u.id, email := u.email }

/-- A websocket client as the control sees it: its authenticated user view
(or `None`). -/
structure Client where
  user : Option UserView
deriving DecidableEq, Repr

/-- `client.current_user`: the signed-in user's id, `None` when anonymous.
(The source tests it with Python truthiness; autoincremented ids are
nonzero, so truthiness coincides with presence.) -/
def Client.current_user (c : Client) : Option Nat :=
  c.user.map (fun uv => uv.id)

/-- Errors raised by the embedded code.  `exc msg` is a plain
`Exception(msg)`; `valueError` is what `datetime.datetime` raises on an
invalid date; `noResultFound` / `multipleResultsFound` are SQLAlchemy's
`.one()` / `.one_or_none()` failures; `attributeError` models calling a
method on a missing relation target. -/
inductive Err where
  | exc (msg : String)
  | valueError (msg : String)
  | noResultFound
  | multipleResultsFound
  | attributeError
deriving DecidableEq, Repr

/-- The persistent store: the three entity tables. -/
structure DB where
  users : List User
  deeds : List Deed
  accomplishments : List Accomplishment
deriving DecidableEq, Repr

/-- A queued/broadcast event `(signal, message, accl)`; `accl = none` is
the PUBLIC audience. -/
structure Event where
  signal : String
  message : DeedView
  accl : Option (List Nat)
deriving DecidableEq, Repr

/-- The control's mutable state: the database, the pending notification
list `self._pending`, and the log of events handed to the broadcaster
(in delivery order). -/
structure ControlState where
  db : DB
  pending : List Event
  log : List Event
deriving DecidableEq, Repr

/-- Autoincrement for deeds: one more than the largest existing id. -/
def nextDeedId (db : DB) : Nat :=
  (db.deeds.map (fun d => d.id)).foldr max 0 + 1

/-- Autoincrement for accomplishments. -/
def nextAccomplishmentId (db : DB) : Nat :=
  (db.accomplishments.map (fun a => a.id)).foldr max 0 + 1

namespace Control

/-- The outcome of one pass through the `session` context manager:
the result (or the propagated error), the durable database after the
scope resolves, and whether the session was closed. -/
structure SessionOutcome (α : Type) where
  result : Except Err α
  db : DB
  closed : Bool
deriving Repr

/-- `Control.session` (control.py lines 35-48): run `work` on a fresh
session; on normal return commit its writes, on an exception roll them
back and re-raise, and close the session on every path. -/
def session {α : Type} (db : DB) (work : DB → Except Err (α × DB)) :
    SessionOutcome α :=
  match work db with
  | Except.ok (a, dbNew) => { result := Except.ok a, db := dbNew, closed := true }
  | Except.error e => { result := Except.error e, db := db, closed := true }

/-- `Control._flush` (control.py lines 65-70): called once after work
completes; without an error every pending event is broadcast in order,
and the pending list is emptied in either case. -/
def flush (st : ControlState) (error : Option Err) : ControlState :=
  let st1 := if error.isNone then { st with log := st.log ++ st.pending } else st
  { st1 with pending := [] }

/-- Modelled from the spec: the transport framework (not under src/) runs
each request body inside `Control.session` and then calls `Control._flush`
exactly once with the outcome.  `work` receives the database and the
pending list; on failure the error carries the pending list as it stood
when the exception was raised. -/
def runScope {α : Type} (st : ControlState)
    (work : DB → List Event → Except (Err × List Event) (α × DB × List Event)) :
    Except Err α × ControlState :=
  match work st.db st.pending with
  | Except.ok (a, dbNew, pend) =>
      (Except.ok a, flush { db := dbNew, pending := pend, log := st.log } none)
  | Except.error (e, pend) =>
      (Except.error e, flush { db := st.db, pending := pend, log := st.log } (some e))

/-- `Control.sign_in` (control.py lines 82-91): look the user up by email
with `.one()`, authenticate, and set `client.user`; `NoResultFound` and
`ValueError` are both mapped to `Exception("Email or password incorrect")`
and leave the client untouched. -/
def sign_in (db : DB) (client : Client) (email password : String) :
    Except Err Unit × Client :=
  match db.users.filter (fun u => u.email == email) with
  | [] => (Except.error (Err.exc "Email or password incorrect"), client)
  | [u] =>
      if u.authenticate password then
        (Except.ok (), { client with user := some u.to_json })
      else
        (Except.error (Err.exc "Email or password incorrect"), client)
  | _ => (Except.error Err.multipleResultsFound, client)

/-- `Control.get_deeds` (control.py lines 134-137): list every deed,
optionally limited, as JSON views; the state is read, never written. -/
def get_deeds (st : ControlState) (limit : Option Nat) :
    List DeedView × ControlState :=
  let deeds := match limit with
    | none => st.db.deeds
    | some n => st.db.deeds.take n
  (deeds.map Deed.to_json, st)

/-- `Control.insert_deed` (control.py lines 139-144): build a Deed from
the description, persist it (the flush assigns its id, the model supplies
`created` = now), and enqueue a public `insert_deed` event with its view.
The Python method has no `return`, so the caller receives `None` — hence
the `Option DeedView` result, always `none`.  The `user` argument is the
one `user_session` injects; the body never uses it. -/
def insert_deed (st : ControlState) (user : User) (now : DateTime)
    (description : String) : Option DeedView × ControlState :=
  let deed : Deed := { id := nextDeedId st.db, description := description,
                       created := now }
  let db1 := { st.db with deeds := st.db.deeds ++ [deed] }
  (none,
   { st with db := db1,
             pending := st.pending ++
               [{ signal := "insert_deed", message := deed.to_json, accl := none }] })

end Control

/-- `insert_deed` from `actions/insert_deed.py` (lines 5-13): persist the
new Deed, broadcast the detailed view publicly (the context's broadcast is
the deferred enqueue, per the spec's notification-queue contract), and
return that view. -/
def insert_deed_action (st : ControlState) (now : DateTime)
    (description : String) : DeedView × ControlState :=
  let deed : Deed := { id := nextDeedId st.db, description := description,
                       created := now }
  let result := detailed_deed_view deed
  (result,
   { st with db := { st.db with deeds := st.db.deeds ++ [deed] },
             pending := st.pending ++
               [{ signal := "INSERT_DEED", message := result, accl := none }] })

/-- Modelled from the spec: one value of the date-seeded pseudo-random
generator behind `func.rand(seed)` (the persistence collaborator's RNG,
not under src/) — a linear-congruential value attached to row `n`. -/
def randVal (seed n : Nat) : Nat :=
  (1103515245 * (seed + n) + 12345) % 2 ^ 31

/-- Attach the seeded pseudo-random sort key to each row in turn. -/
def attachKeys (seed : Nat) : Nat → List Deed → List (Nat × Deed)
  | _, [] => []
  | i, d :: ds => (randVal seed i, d) :: attachKeys seed (i + 1) ds

/-- Ordered insertion by sort key. -/
def insertByKey (x : Nat × Deed) : List (Nat × Deed) → List (Nat × Deed)
  | [] => [x]
  | y :: ys => if x.1 < y.1 then x :: y :: ys else y :: insertByKey x ys

/-- Sort rows by their attached keys (insertion sort). -/
def sortByKey : List (Nat × Deed) → List (Nat × Deed)
  | [] => []
  | x :: xs => insertByKey x (sortByKey xs)

/-- Modelled from the spec: `ORDER BY rand(seed)` — the deterministic
shuffle of the rows driven by the generator seeded with the
integer-encoded date. -/
def shuffleRand (seed : Nat) (ds : List Deed) : List Deed :=
  (sortByKey (attachKeys seed 0 ds)).map (fun p => p.2)

/-- One step of the in-memory `GROUP BY deed_id / COUNT` aggregation:
credit one vote for `did` in the running association list. -/
def insertVote (did : Nat) : List (Nat × Nat) → List (Nat × Nat)
  | [] => [(did, 1)]
  | (k, c) :: rest =>
      if k = did then (k, c + 1) :: rest else (k, c) :: insertVote did rest

/-- The `GROUP BY deed_id` / `COUNT(deed_id)` aggregation of today's
accomplishments: one `(deed_id, count)` row per distinct deed, keys in
first-occurrence order. -/
def groupCounts (l : List Accomplishment) : List (Nat × Nat) :=
  l.foldl (fun acc a => insertVote a.deed_id acc) []

/-- CPython's `is` on two integers that were created independently (here:
one deserialized by the ORM row loader, one by the group-by result row):
identity holds exactly when both values are equal and drawn from the
interned small-int cache, whose nonnegative range is `0..256`; equal
values above 256 are distinct objects, so `is` is false for them. -/
def intIs (a b : Nat) : Bool :=
  a == b && decide (a ≤ 256)

namespace Control

/-- `today_start` of `get_todays_deeds`: the current instant truncated to
midnight, `datetime.datetime(today.year, today.month, today.day)`. -/
def dayStart (now : DateTime) : DateTime :=
  ⟨now.year, now.month, now.day, 0, 0, 0⟩

/-- The `seed` of `get_todays_deeds`: `int(today.strftime('%Y%m%d'))`. -/
def daySeed (now : DateTime) : Nat :=
  now.year * 10000 + now.month * 100 + now.day

/-- The window clause of the all-users accomplishment query:
`completed >= today_start AND completed < tomorrow` (with `tomorrow`
obtained through `timedelta(days=1)`). -/
def windowPred (now : DateTime) (a : Accomplishment) : Bool :=
  (dayStart now).key ≤ a.completed.key &&
    a.completed.key < (dayStart now).addOneDay.key

/-- The caller's-own-accomplishment clause: the window clause conjoined
with `user_id == client.current_user`. -/
def minePred (now : DateTime) (uid : Nat) (a : Accomplishment) : Bool :=
  windowPred now a && a.user_id == uid

/-- The candidate pair: deeds created strictly before today's start,
ordered by `rand(seed)` and limited to 2. -/
def candidates (db : DB) (now : DateTime) : List Deed :=
  (shuffleRand (daySeed now)
    (db.deeds.filter (fun d => d.created.key < (dayStart now).key))).take 2

/-- `Control.get_todays_deeds` (control.py lines 96-132), as a function of
the database: compute today's bounds and the date seed `YYYYMMDD`, pick
the first 2 of the seeded shuffle of the deeds created before today; for
an authenticated caller who already has an accomplishment today
(`one_or_none`), replace the pair by that single deed annotated with its
share of today's votes (`100 * count / total_votes`); the `for` loop falls
back to the candidate pair when no group row matches.  The source compares
`achieved.deed_id is deed_id` — CPython object identity on two freshly
deserialized primary-key integers, embedded as `intIs`: true only for
equal interned values (`≤ 256`), false for equal values above the
small-int cache. -/
def get_todays_deeds_body (db : DB) (client : Client) (now : DateTime) :
    Except Err (List DeedView) :=
  match client.current_user with
  | none => Except.ok ((candidates db now).map Deed.to_json)
  | some uid =>
      match db.accomplishments.filter (minePred now uid) with
      | [] => Except.ok ((candidates db now).map Deed.to_json)
      | [achieved] =>
          let result := groupCounts (db.accomplishments.filter (windowPred now))
          let total_votes := (result.map (fun p => p.2)).sum
          match result.find? (fun p => intIs achieved.deed_id p.1) with
          | some row =>
              match db.deeds.find? (fun d => d.id == achieved.deed_id) with
              | some deed =>
                  Except.ok [{ deed.to_json with
                    percent_of_votes :=
                      some (100 * (row.2 : ℚ) / (total_votes : ℚ)) }]
              | none => Except.error Err.attributeError
          | none => Except.ok ((candidates db now).map Deed.to_json)
      | _ => Except.error Err.multipleResultsFound

/-- `Control.get_todays_deeds` at the control-state level: the body only
queries, so the state comes back as it went in. -/
def get_todays_deeds (st : ControlState) (client : Client) (now : DateTime) :
    Except Err (List DeedView) × ControlState :=
  (get_todays_deeds_body st.db client now, st)

/-- The `[today, tomorrow)` window computation of `accomplish_deed`
(control.py lines 148-150): `tomorrow` is built as
`datetime.datetime(now.year, now.month, now.day + 1)`, which raises
`ValueError` whenever `now` is the last day of its month. -/
def accomplishWindow (now : DateTime) : Except Err (DateTime × DateTime) :=
  match mkDatetime now.year now.month (now.day + 1) with
  | some tomorrow => Except.ok (⟨now.year, now.month, now.day, 0, 0, 0⟩, tomorrow)
  | none => Except.error (Err.valueError "day is out of range for month")

/-- `Control.accomplish_deed` (control.py lines 146-167): compute today's
window, refuse with `Exception('Deed already accomplished today')` when
the caller already has an accomplishment inside it, otherwise load the
deed by id with `.one()`, persist a new Accomplishment stamped `now`, and
enqueue a public `update_deed` event with the deed's view. -/
def accomplish_deed (st : ControlState) (user : User) (now : DateTime)
    (id : Nat) : Except Err (Unit × ControlState) := do
  let (today, tomorrow) ← accomplishWindow now
  let todays_deeds := st.db.accomplishments.filter (fun a =>
    a.user_id == user.id && today.key ≤ a.completed.key &&
      a.completed.key < tomorrow.key)
  if todays_deeds.length ≥ 1 then
    throw (Err.exc "Deed already accomplished today")
  let deed ← match st.db.deeds.filter (fun d => d.id == id) with
    | [d] => pure d
    | [] => throw Err.noResultFound
    | _ => throw Err.multipleResultsFound
  let accomplishment : Accomplishment :=
    { id := nextAccomplishmentId st.db, deed_id := deed.id, user_id := user.id,
      completed := now }
  pure ((),
    { st with
        db := { st.db with
                  accomplishments := st.db.accomplishments ++ [accomplishment] },
        pending := st.pending ++
          [{ signal := "update_deed", message := deed.to_json, accl := none }] })

end Control

/-! Sample data shared by the concrete theorems and witnesses. -/

/-- A stored user. -/
def userAlice : User := ⟨1, "alice@example.com", "hunter2"⟩

/-- A stored deed, created well before any day the scenarios use. -/
def deedRecycle : Deed := ⟨1, "Recycle", ⟨2024, 1, 1, 0, 0, 0⟩⟩

/-- Alice's accomplishment of deed 1 on 2024-01-30 (a mid-month day). -/
def acclJan30 : Accomplishment := ⟨1, 1, 1, ⟨2024, 1, 30, 9, 0, 0⟩⟩

/-- Control state on 2024-01-30 with Alice's vote already recorded. -/
def stJan30 : ControlState := ⟨⟨[userAlice], [deedRecycle], [acclJan30]⟩, [], []⟩

/-- Alice's accomplishment of deed 1 on 2024-01-31 (the last day of the
month). -/
def acclJan31 : Accomplishment := ⟨1, 1, 1, ⟨2024, 1, 31, 9, 0, 0⟩⟩

/-- Control state on 2024-01-31 with Alice's vote already recorded. -/
def stJan31 : ControlState := ⟨⟨[userAlice], [deedRecycle], [acclJan31]⟩, [], []⟩

/-- A second stored deed. -/
def deedPlant : Deed := ⟨2, "Plant a tree", ⟨2024, 1, 2, 0, 0, 0⟩⟩

/-- A third stored deed. -/
def deedDonate : Deed := ⟨3, "Donate old clothes", ⟨2024, 1, 3, 0, 0, 0⟩⟩

/-- Control state with three deeds, all created before 2024-01-30, and no
votes. -/
def stDeeds3 : ControlState :=
  ⟨⟨[userAlice], [deedRecycle, deedPlant, deedDonate], []⟩, [], []⟩

/-- Control state for the vote-percentage scenario: on 2024-01-30 users
1, 2 and 3 voted deed 1 and user 4 voted deed 2. -/
def stVotes : ControlState :=
  ⟨⟨[userAlice], [deedRecycle, deedPlant],
    [⟨1, 1, 1, ⟨2024, 1, 30, 8, 0, 0⟩⟩, ⟨2, 1, 2, ⟨2024, 1, 30, 9, 0, 0⟩⟩,
     ⟨3, 1, 3, ⟨2024, 1, 30, 10, 0, 0⟩⟩, ⟨4, 2, 4, ⟨2024, 1, 30, 11, 0, 0⟩⟩]⟩,
   [], []⟩

/-- A deed whose id lies above CPython's small-int cache. -/
def deedBig1 : Deed := ⟨300, "Recycle", ⟨2024, 1, 1, 0, 0, 0⟩⟩

/-- A second deed with a non-interned id. -/
def deedBig2 : Deed := ⟨301, "Plant a tree", ⟨2024, 1, 2, 0, 0, 0⟩⟩

/-- The vote-percentage scenario with deed ids above 256: on 2024-01-30
users 1, 2 and 3 voted deed 300 and user 4 voted deed 301. -/
def stVotesBig : ControlState :=
  ⟨⟨[userAlice], [deedBig1, deedBig2],
    [⟨1, 300, 1, ⟨2024, 1, 30, 8, 0, 0⟩⟩, ⟨2, 300, 2, ⟨2024, 1, 30, 9, 0, 0⟩⟩,
     ⟨3, 300, 3, ⟨2024, 1, 30, 10, 0, 0⟩⟩,
     ⟨4, 301, 4, ⟨2024, 1, 30, 11, 0, 0⟩⟩]⟩,
   [], []⟩

/-- User 1's vote in `stVotes`. -/
def acclAmy : Accomplishment := ⟨1, 1, 1, ⟨2024, 1, 30, 8, 0, 0⟩⟩

/-- User 4's vote in `stVotes`. -/
def acclDan : Accomplishment := ⟨4, 2, 4, ⟨2024, 1, 30, 11, 0, 0⟩⟩

/-- A client signed in as user 1. -/
def clientAmy : Client := ⟨some ⟨1, "alice@example.com"⟩⟩

/-- A client signed in as user 4. -/
def clientDan : Client := ⟨some ⟨4, "dan@example.com"⟩⟩

/-- The instant of the vote-percentage scenario. -/
def nowVote : DateTime := ⟨2024, 1, 30, 12, 0, 0⟩

/-! Helper lemmas about the shuffle and the group-by aggregation. -/

/-- Ordered insertion grows the list by one. -/
theorem length_insertByKey (x : Nat × Deed) (l : List (Nat × Deed)) :
    (insertByKey x l).length = l.length + 1 := by
  induction l with
  | nil => rfl
  | cons y ys ih =>
      by_cases h : x.1 < y.1 <;> simp [insertByKey, h, ih]

/-- Sorting by key preserves length. -/
theorem length_sortByKey (l : List (Nat × Deed)) :
    (sortByKey l).length = l.length := by
  induction l with
  | nil => rfl
  | cons x xs ih => simp [sortByKey, length_insertByKey, ih]

/-- Attaching keys preserves length. -/
theorem length_attachKeys (seed : Nat) (i : Nat) (ds : List Deed) :
    (attachKeys seed i ds).length = ds.length := by
  induction ds generalizing i with
  | nil => rfl
  | cons d ds ih => simp [attachKeys, ih]

/-- The seeded shuffle is a reordering: it preserves length. -/
theorem length_shuffleRand (seed : Nat) (ds : List Deed) :
    (shuffleRand seed ds).length = ds.length := by
  simp [shuffleRand, length_sortByKey, length_attachKeys]

/-- Crediting a vote raises the total count by exactly one. -/
theorem sum_insertVote (d : Nat) (acc : List (Nat × Nat)) :
    ((insertVote d acc).map (fun p => p.2)).sum =
      ((acc.map (fun p => p.2)).sum) + 1 := by
  induction acc with
  | nil => rfl
  | cons y ys ih =>
      cases y with
      | mk k c =>
          by_cases h : k = d
          · simp [insertVote, h]
            omega
          · simp [insertVote, h, ih]
            omega

/-- Crediting a vote for `d` does not disturb the row of another key. -/
theorem find_insertVote_ne (d e : Nat) (hne : e ≠ d) (acc : List (Nat × Nat)) :
    (insertVote d acc).find? (fun p => p.1 == e) =
      acc.find? (fun p => p.1 == e) := by
  induction acc with
  | nil => simp [insertVote, List.find?, (by simpa using hne.symm : (d == e) = false)]
  | cons y ys ih =>
      cases y with
      | mk k c =>
          by_cases h : k = d
          · subst h
            simp [insertVote, List.find?,
              (by simpa using hne.symm : (k == e) = false)]
          · by_cases hke : k = e
            · subst hke
              simp [insertVote, h, List.find?]
            · simp [insertVote, h, List.find?,
                (by simpa using hke : (k == e) = false), ih]

/-- Crediting a vote for `d` makes its row's count one more than before
(a missing row counts as zero). -/
theorem find_insertVote_eq (d : Nat) (acc : List (Nat × Nat)) :
    (insertVote d acc).find? (fun p => p.1 == d) =
      some (d, (((acc.find? (fun p => p.1 == d)).map (fun p => p.2)).getD 0) + 1) := by
  induction acc with
  | nil => simp [insertVote, List.find?]
  | cons y ys ih =>
      cases y with
      | mk k c =>
          by_cases h : k = d
          · subst h
            simp [insertVote, List.find?]
          · simp [insertVote, h, List.find?,
              (by simpa using h : (k == d) = false), ih]

/-- Folding votes over `l` adds `l.length` to the running total. -/
theorem sum_foldl_insertVote (l : List Accomplishment) (acc : List (Nat × Nat)) :
    ((l.foldl (fun acc a => insertVote a.deed_id acc) acc).map
        (fun p => p.2)).sum =
      (acc.map (fun p => p.2)).sum + l.length := by
  induction l generalizing acc with
  | nil => simp
  | cons x xs ih =>
      simp only [List.foldl_cons, ih, sum_insertVote, List.length_cons]
      omega

/-- The total of the group-by counts is the number of aggregated rows. -/
theorem groupCounts_sum (l : List Accomplishment) :
    ((groupCounts l).map (fun p => p.2)).sum = l.length := by
  simpa using sum_foldl_insertVote l []

/-- Folding votes over `l` adds `l`'s occurrence count of `d` to the count
stored in `d`'s row. -/
theorem find_foldl_insertVote (l : List Accomplishment)
    (acc : List (Nat × Nat)) (d : Nat) :
    (((l.foldl (fun acc a => insertVote a.deed_id acc) acc).find?
          (fun p => p.1 == d)).map (fun p => p.2)).getD 0 =
        (((acc.find? (fun p => p.1 == d)).map (fun p => p.2)).getD 0) +
          l.countP (fun x => x.deed_id == d) ∧
    (l.countP (fun x => x.deed_id == d) ≠ 0 →
      ∃ c : Nat, (l.foldl (fun acc a => insertVote a.deed_id acc) acc).find?
          (fun p => p.1 == d) = some (d, c)) := by
  induction l generalizing acc with
  | nil => simp
  | cons x xs ih =>
      by_cases h : x.deed_id = d
      · subst h
        constructor
        · simp only [List.foldl_cons, (ih (insertVote x.deed_id acc)).1,
            find_insertVote_eq, List.countP_cons]
          simp
          omega
        · intro _
          have h1 := (ih (insertVote x.deed_id acc)).1
          by_cases hxs : xs.countP (fun y => y.deed_id == x.deed_id) = 0
          · -- the fold keeps the row `insertVote` created
            rcases hfind : (xs.foldl (fun acc a => insertVote a.deed_id acc)
                (insertVote x.deed_id acc)).find? (fun p => p.1 == x.deed_id)
              with _ | row
            · exfalso
              have h2 := h1
              rw [hfind, find_insertVote_eq] at h2
              simp [hxs] at h2
            · refine ⟨row.2, ?_⟩
              rw [List.foldl_cons, hfind]
              have := List.find?_some hfind
              have hrow : row.1 = x.deed_id := by simpa using this
              rw [← hrow]
          · rcases (ih (insertVote x.deed_id acc)).2 hxs with ⟨c, hc⟩
            exact ⟨c, by rw [List.foldl_cons]; exact hc⟩
      · have hne : (x.deed_id == d) = false := by simpa using h
        constructor
        · simp only [List.foldl_cons, (ih (insertVote x.deed_id acc)).1,
            find_insertVote_ne x.deed_id d (Ne.symm h) acc, List.countP_cons, hne]
          simp
        · intro hcnt
          have hcnt2 : xs.countP (fun y => y.deed_id == d) ≠ 0 := by
            simpa [List.countP_cons, hne] using hcnt
          rcases (ih (insertVote x.deed_id acc)).2 hcnt2 with ⟨c, hc⟩
          exact ⟨c, by rw [List.foldl_cons]; exact hc⟩

/-- A deed voted at least once today has exactly one group-by row, whose
count is its number of votes. -/
theorem groupCounts_find (l : List Accomplishment) (d : Nat)
    (h : l.countP (fun x => x.deed_id == d) ≠ 0) :
    (groupCounts l).find? (fun p => p.1 == d) =
      some (d, l.countP (fun x => x.deed_id == d)) := by
  have hmain := find_foldl_insertVote l [] d
  rcases hmain.2 h with ⟨c, hc⟩
  have h1 := hmain.1
  rw [show (groupCounts l) = l.foldl (fun acc a => insertVote a.deed_id acc) []
    from rfl] at *
  rw [hc] at h1 ⊢
  simp at h1
  rw [h1]

/-! The claims. -/

/-- Claim C5: `session` commits the unit-of-work on normal return of the
body; an error raised inside the body rolls the database back and
propagates unchanged; and the session is closed on every exit path. -/
theorem C5_session_contract :
    (∀ (α : Type) (db : DB) (work : DB → Except Err (α × DB)) (a : α)
        (dbNew : DB), work db = Except.ok (a, dbNew) →
        Control.session db work =
          { result := Except.ok a, db := dbNew, closed := true }) ∧
    (∀ (α : Type) (db : DB) (work : DB → Except Err (α × DB)) (e : Err),
        work db = Except.error e →
        Control.session db work =
          { result := Except.error e, db := db, closed := true }) ∧
    (∀ (α : Type) (db : DB) (work : DB → Except Err (α × DB)),
        (Control.session db work).closed = true) := by
  refine ⟨?_, ?_, ?_⟩
  · intro α db work a dbNew h
    simp [Control.session, h]
  · intro α db work e h
    simp [Control.session, h]
  · intro α db work
    cases h : work db with
    | ok v => cases v with
      | mk a dbNew => simp [Control.session, h]
    | error e => simp [Control.session, h]

/-- Witness for C5 at a concrete database: a succeeding body commits its
write and a failing body rolls it back, the session closing both times. -/
theorem C5_session_contract_witness :
    Control.session (α := Nat) ⟨[], [], []⟩
        (fun db => Except.ok (7, { db with deeds := [deedRecycle] })) =
      { result := Except.ok 7, db := ⟨[], [deedRecycle], []⟩, closed := true } ∧
    Control.session (α := Nat) ⟨[], [], []⟩
        (fun _ => Except.error (Err.exc "boom")) =
      { result := Except.error (Err.exc "boom"), db := ⟨[], [], []⟩,
        closed := true } :=
  ⟨C5_session_contract.1 Nat _ _ 7 _ rfl, C5_session_contract.2.1 Nat _ _ _ rfl⟩

/-- Claim C4: a successful flush broadcasts every queued event in enqueue
order and empties the queue; a failed flush empties the queue without
broadcasting; hence a unit-of-work that fails after enqueueing an event
broadcasts nothing and persists nothing. -/
theorem C4_flush_and_scope_atomicity :
    (∀ st : ControlState, Control.flush st none =
        { st with log := st.log ++ st.pending, pending := [] }) ∧
    (∀ (st : ControlState) (e : Err), Control.flush st (some e) =
        { st with pending := [] }) ∧
    (∀ (α : Type) (st : ControlState) (ev : Event) (e : Err),
        Control.runScope (α := α) st
            (fun _ pend => Except.error (e, pend ++ [ev])) =
          (Except.error e, { st with pending := [] })) := by
  refine ⟨fun st => rfl, fun st e => rfl, fun α st ev e => rfl⟩

/-- Claim C9: `get_todays_deeds` is read-only — the control state after
the call (tables, pending queue and broadcast log alike) is exactly the
state before it. -/
theorem C9_get_todays_deeds_readonly :
    ∀ (st : ControlState) (client : Client) (now : DateTime),
      (Control.get_todays_deeds st client now).2 = st ∧
      (Control.get_todays_deeds st client now).2.pending = st.pending ∧
      (Control.get_todays_deeds st client now).2.log = st.log :=
  fun _ _ _ => ⟨rfl, rfl, rfl⟩

/-- Claim C10: `get_deeds` with no limit returns the view of every stored
deed, with limit `n` returns at most `n` views, and mutates nothing. -/
theorem C10_get_deeds_limit :
    (∀ st : ControlState,
        (Control.get_deeds st none).1 = st.db.deeds.map Deed.to_json) ∧
    (∀ (st : ControlState) (n : Nat),
        (Control.get_deeds st (some n)).1.length ≤ n) ∧
    (∀ (st : ControlState) (limit : Option Nat),
        (Control.get_deeds st limit).2 = st) := by
  refine ⟨fun st => rfl, ?_, fun st limit => rfl⟩
  intro st n
  simp [Control.get_deeds]

/-- Claim C6 (code bug): the window computation of `accomplish_deed`
builds tomorrow as `datetime(year, month, day + 1)`, so on the last day
of a month it raises `ValueError` instead of producing the next day's
midnight; on any other day it behaves as the claim states. -/
theorem C6_accomplish_window_month_end_bug :
    Control.accomplishWindow ⟨2024, 12, 31, 12, 0, 0⟩ =
      Except.error (Err.valueError "day is out of range for month") ∧
    Control.accomplishWindow ⟨2024, 12, 30, 12, 0, 0⟩ =
      Except.ok (⟨2024, 12, 30, 0, 0, 0⟩, ⟨2024, 12, 31, 0, 0, 0⟩) := by
  constructor <;> rfl

/-- Claim C1 (code bug): on a mid-month day a second same-day vote fails
with `Exception('Deed already accomplished today')` as the claim states,
but on the last day of a month the broken `day + 1` window computation
raises `ValueError` before the uniqueness check is ever reached. -/
theorem C1_second_vote_same_day :
    Control.accomplish_deed stJan30 userAlice ⟨2024, 1, 30, 10, 0, 0⟩ 1 =
      Except.error (Err.exc "Deed already accomplished today") ∧
    Control.accomplish_deed stJan31 userAlice ⟨2024, 1, 31, 10, 0, 0⟩ 1 =
      Except.error (Err.valueError "day is out of range for month") := by
  constructor <;> rfl

/-- Claim C8: when the email matches no stored user, or the password fails
authentication for the unique matching user, `sign_in` rejects with the
authentication error and leaves the client's session state unchanged. -/
theorem C8_sign_in_rejected (db : DB) (client : Client)
    (email password : String)
    (h : db.users.filter (fun u => u.email == email) = [] ∨
         ∃ u : User, db.users.filter (fun u => u.email == email) = [u] ∧
           u.authenticate password = false) :
    Control.sign_in db client email password =
      (Except.error (Err.exc "Email or password incorrect"), client) := by
  rcases h with h | ⟨u, h, hpw⟩
  · simp [Control.sign_in, h]
  · simp [Control.sign_in, h, hpw]

/-- Witness for C8: unknown email and wrong password are both rejected
with the client untouched. -/
theorem C8_sign_in_rejected_witness :
    Control.sign_in ⟨[userAlice], [], []⟩ ⟨none⟩ "bob@example.com" "hunter2" =
      (Except.error (Err.exc "Email or password incorrect"), ⟨none⟩) ∧
    Control.sign_in ⟨[userAlice], [], []⟩ ⟨none⟩ "alice@example.com" "wrong" =
      (Except.error (Err.exc "Email or password incorrect"), ⟨none⟩) :=
  ⟨C8_sign_in_rejected _ _ _ _ (Or.inl rfl),
   C8_sign_in_rejected _ _ _ _ (Or.inr ⟨userAlice, rfl, rfl⟩)⟩

/-- Claim C7 counterexample: `Control.insert_deed` creates, persists and
enqueues the new deed's representation, but its body has no `return`, so
the caller receives `None` rather than that representation. -/
theorem C7_control_insert_deed_returns_no_view :
    (Control.insert_deed ⟨⟨[userAlice], [], []⟩, [], []⟩ userAlice
        ⟨2024, 1, 2, 8, 0, 0⟩ "Recycle").1 = none ∧
    (Control.insert_deed ⟨⟨[userAlice], [], []⟩, [], []⟩ userAlice
        ⟨2024, 1, 2, 8, 0, 0⟩ "Recycle").2.pending =
      [⟨"insert_deed", ⟨1, "Recycle", ⟨2024, 1, 2, 8, 0, 0⟩, none⟩, none⟩] :=
  ⟨rfl, rfl⟩

/-- Claim C7 as amended: both insertion routines create and persist a Deed
with the given text and enqueue a public deed-inserted notification
carrying its representation; the actions-module `insert_deed` also returns
that representation, while `Control.insert_deed` returns `None`. -/
theorem C7_insert_deed_behaviour :
    ∀ (st : ControlState) (user : User) (now : DateTime) (description : String),
      ((Control.insert_deed st user now description).1 = none ∧
       (Control.insert_deed st user now description).2.db.deeds =
         st.db.deeds ++ [⟨nextDeedId st.db, description, now⟩] ∧
       (Control.insert_deed st user now description).2.pending =
         st.pending ++ [⟨"insert_deed",
           Deed.to_json ⟨nextDeedId st.db, description, now⟩, none⟩]) ∧
      ((insert_deed_action st now description).1 =
         detailed_deed_view ⟨nextDeedId st.db, description, now⟩ ∧
       (insert_deed_action st now description).2.db.deeds =
         st.db.deeds ++ [⟨nextDeedId st.db, description, now⟩] ∧
       (insert_deed_action st now description).2.pending =
         st.pending ++ [⟨"INSERT_DEED",
           detailed_deed_view ⟨nextDeedId st.db, description, now⟩, none⟩]) :=
  fun _ _ _ _ => ⟨⟨rfl, rfl, rfl⟩, ⟨rfl, rfl, rfl⟩⟩

/-- Claim C3: on a fixed calendar day, with a fixed deed set, every
unauthenticated call to `get_todays_deeds` returns the same candidate
sequence — the first 2 of the date-seeded shuffle of the deeds created
before the day's start — and it has 2 elements whenever at least 2 deeds
qualify. -/
theorem C3_daily_determinism (st : ControlState) (c1 c2 : Client)
    (now1 now2 : DateTime)
    (h1 : c1.current_user = none) (h2 : c2.current_user = none)
    (hy : now1.year = now2.year) (hm : now1.month = now2.month)
    (hd : now1.day = now2.day) :
    ∃ l : List DeedView,
      Control.get_todays_deeds st c1 now1 = (Except.ok l, st) ∧
      Control.get_todays_deeds st c2 now2 = (Except.ok l, st) ∧
      (2 ≤ (st.db.deeds.filter (fun d =>
          d.created.key < (Control.dayStart now1).key)).length →
        l.length = 2) := by
  have hcand : Control.candidates st.db now2 = Control.candidates st.db now1 := by
    unfold Control.candidates Control.daySeed Control.dayStart
    rw [hy, hm, hd]
  refine ⟨(Control.candidates st.db now1).map Deed.to_json, ?_, ?_, ?_⟩
  · simp [Control.get_todays_deeds, Control.get_todays_deeds_body, h1]
  · simp [Control.get_todays_deeds, Control.get_todays_deeds_body, h2, hcand]
  · intro hlen
    rw [List.length_map]
    unfold Control.candidates
    rw [List.length_take, length_shuffleRand]
    omega

/-- Witness for C3: with three stored deeds, a morning call and an evening
call on 2024-01-30 by two anonymous clients return the same 2 candidates. -/
theorem C3_daily_determinism_witness :
    ∃ l : List DeedView,
      Control.get_todays_deeds stDeeds3 ⟨none⟩ ⟨2024, 1, 30, 8, 0, 0⟩ =
        (Except.ok l, stDeeds3) ∧
      Control.get_todays_deeds stDeeds3 ⟨none⟩ ⟨2024, 1, 30, 20, 0, 0⟩ =
        (Except.ok l, stDeeds3) ∧
      (2 ≤ (stDeeds3.db.deeds.filter (fun d =>
          d.created.key <
            (Control.dayStart ⟨2024, 1, 30, 8, 0, 0⟩).key)).length →
        l.length = 2) :=
  C3_daily_determinism stDeeds3 ⟨none⟩ ⟨none⟩ ⟨2024, 1, 30, 8, 0, 0⟩
    ⟨2024, 1, 30, 20, 0, 0⟩ rfl rfl rfl rfl rfl

/-- Two searches with pointwise-equal predicates find the same row. -/
theorem find?_congr {α : Type} (p q : α → Bool) (l : List α)
    (h : ∀ x, p x = q x) : l.find? p = l.find? q := by
  induction l with
  | nil => rfl
  | cons x xs ih => simp [List.find?_cons, h x, ih]

/-- Supporting lemma: for deed ids inside CPython's small-int cache
(`≤ 256`), where the source's identity test coincides with equality, an
authenticated caller with exactly one accomplishment in today's window
gets back the single voted deed annotated with
`100 * (today's votes for that deed) / (today's total votes)`. -/
theorem vote_percentage_small_ids (st : ControlState) (client : Client)
    (now : DateTime) (uid : Nat) (a : Accomplishment) (deed : Deed)
    (hc : client.current_user = some uid)
    (hmine : st.db.accomplishments.filter (Control.minePred now uid) = [a])
    (hdeed : st.db.deeds.find? (fun d => d.id == a.deed_id) = some deed)
    (hsmall : a.deed_id ≤ 256) :
    Control.get_todays_deeds st client now =
      (Except.ok [{ deed.to_json with percent_of_votes := some (100 *
        (((st.db.accomplishments.filter (Control.windowPred now)).countP
            (fun x => x.deed_id == a.deed_id) : Nat) : ℚ) /
        (((st.db.accomplishments.filter (Control.windowPred now)).length :
            Nat) : ℚ)) }],
       st) := by
  have hmem : a ∈ st.db.accomplishments.filter (Control.minePred now uid) := by
    rw [hmine]
    exact List.mem_singleton_self a
  have hmem2 := List.mem_filter.mp hmem
  have hwin : Control.windowPred now a = true := by
    have hp := hmem2.2
    simp only [Control.minePred, Bool.and_eq_true] at hp
    exact hp.1
  have hw : a ∈ st.db.accomplishments.filter (Control.windowPred now) :=
    List.mem_filter.mpr ⟨hmem2.1, hwin⟩
  have hcnt : (st.db.accomplishments.filter (Control.windowPred now)).countP
      (fun x => x.deed_id == a.deed_id) ≠ 0 := by
    have hpos : 0 < (st.db.accomplishments.filter
        (Control.windowPred now)).countP (fun x => x.deed_id == a.deed_id) :=
      List.countP_pos_iff.mpr ⟨a, hw, by simp⟩
    omega
  have hfind := groupCounts_find
    (st.db.accomplishments.filter (Control.windowPred now)) a.deed_id hcnt
  have hpred : ∀ x : Nat × Nat, intIs a.deed_id x.1 = (x.1 == a.deed_id) := by
    intro x
    by_cases hx : x.1 = a.deed_id
    · simp [intIs, hx, hsmall]
    · have h1 : (a.deed_id == x.1) = false := beq_eq_false_iff_ne.mpr (Ne.symm hx)
      have h2 : (x.1 == a.deed_id) = false := beq_eq_false_iff_ne.mpr hx
      simp [intIs, h1, h2]
  have hfind2 : (groupCounts (st.db.accomplishments.filter
      (Control.windowPred now))).find? (fun p => intIs a.deed_id p.1) =
      some (a.deed_id, (st.db.accomplishments.filter
        (Control.windowPred now)).countP (fun x => x.deed_id == a.deed_id)) := by
    rw [find?_congr (fun p : Nat × Nat => intIs a.deed_id p.1)
      (fun p : Nat × Nat => p.1 == a.deed_id)
      (groupCounts (st.db.accomplishments.filter (Control.windowPred now)))
      hpred]
    exact hfind
  have hsum := groupCounts_sum
    (st.db.accomplishments.filter (Control.windowPred now))
  have hsumQ : (List.map (fun (p : Nat × Nat) => ((p.2 : ℚ)))
      (groupCounts (st.db.accomplishments.filter (Control.windowPred now)))).sum =
      (((st.db.accomplishments.filter (Control.windowPred now)).length : ℚ)) := by
    rw [← hsum]
    simp only [Nat.cast_list_sum, List.map_map]
    rfl
  simp only [Control.get_todays_deeds, Control.get_todays_deeds_body, hc,
    hmine, hfind2, hdeed, hsumQ]

/-- Claim C2 (code bug): with interned deed ids (here 1 and 2) the caller
who voted deed 1 sees 75 percent, exactly as the claim states; but with
the same vote pattern on deed ids 300 and 301 — above CPython's small-int
cache — the source's `achieved.deed_id is deed_id` identity test is false
on every group row, the loop falls through, and the caller who voted
today receives the plain unannotated candidate pair instead of the
75-percent annotation the claim promises. -/
theorem C2_percent_identity_bug :
    Control.get_todays_deeds stVotes clientAmy nowVote =
      (Except.ok [{ deedRecycle.to_json with percent_of_votes := some 75 }],
        stVotes) ∧
    Control.get_todays_deeds stVotes clientDan nowVote =
      (Except.ok [{ deedPlant.to_json with percent_of_votes := some 25 }],
        stVotes) ∧
    stVotesBig.db.accomplishments.filter (Control.minePred nowVote 1) =
      [⟨1, 300, 1, ⟨2024, 1, 30, 8, 0, 0⟩⟩] ∧
    Control.get_todays_deeds stVotesBig clientAmy nowVote =
      (Except.ok ((Control.candidates stVotesBig.db nowVote).map Deed.to_json),
        stVotesBig) ∧
    (∀ v ∈ (Control.candidates stVotesBig.db nowVote).map Deed.to_json,
      v.percent_of_votes = none) := by
  have h1 := vote_percentage_small_ids stVotes clientAmy nowVote 1 acclAmy
    deedRecycle rfl rfl rfl (by decide)
  have h2 := vote_percentage_small_ids stVotes clientDan nowVote 4 acclDan
    deedPlant rfl rfl rfl (by decide)
  have e1 : (stVotes.db.accomplishments.filter
      (Control.windowPred nowVote)).countP
        (fun x => x.deed_id == acclAmy.deed_id) = 3 := rfl
  have e2 : (stVotes.db.accomplishments.filter
      (Control.windowPred nowVote)).countP
        (fun x => x.deed_id == acclDan.deed_id) = 1 := rfl
  have e3 : (stVotes.db.accomplishments.filter
      (Control.windowPred nowVote)).length = 4 := rfl
  rw [e1, e3] at h1
  rw [e2, e3] at h2
  refine ⟨?_, ?_, rfl, rfl, by decide⟩
  · rw [h1]
    norm_num
  · rw [h2]
    norm_num

end DoGooder
